import Mathlib

/-!
Shallow embedding of the fluid-gradient simulation core of `src/script.js`
(classes `FluidGradient` and `PreloaderAnimation`).

The browser-facing pieces are modelled explicitly:
* GPU render targets become `TargetId` handles plus per-target sizes stored
  in the state;
* shader uniforms (`iMouse`, `iTime`, `iFrame`, `iResolution`,
  `iPreviousFrame`, `iFluid`) become plain fields of `FluidState`;
* each event handler (`mousemove`, `mouseleave`, `resize`) and the
  per-frame `animate` tick become pure state-transition functions;
* `animate` additionally returns the list of render operations it issued,
  so that theorems can speak about which buffer each pass read and wrote;
* `init` returns the new state together with the list of console messages
  it emitted, so that theorems can speak about logging.

Timestamps (milliseconds, as returned by `performance.now`) and pixel
coordinates are modelled as integers: the handlers and the frame loop
apply only addition, subtraction and order comparisons to them, so every
statement proved below is insensitive to this choice.  The derived
quantities that the source computes with division — the `iTime` seconds
value and the normalized color components of `hexToRgb` — are exact
rationals.
-/

/-- A four-component vector, modelling `THREE.Vector4` as used for the
`iMouse` uniform. -/
structure Vec4 where
  x : ℤ
  y : ℤ
  z : ℤ
  w : ℤ
deriving DecidableEq

/-- The zero vector, the idle pointer quad. -/
def Vec4.zero : Vec4 := { x := 0, y := 0, z := 0, w := 0 }

/-- Identity of the two off-screen render targets `fluidTarget1` and
`fluidTarget2`. -/
inductive TargetId
  | t1
  | t2
deriving DecidableEq

/-- The mutable state of a `FluidGradient` instance: the fields set in the
constructor, the uniforms of the two shader materials, the sizes of the
renderer and of both render targets, and the current/previous roles of the
two targets. -/
structure FluidState where
  mouseX : ℤ
  mouseY : ℤ
  prevMouseX : ℤ
  prevMouseY : ℤ
  lastMoveTime : ℤ
  frameCount : ℕ
  isInitialized : Bool
  iMouse : Vec4
  iTimeFluid : ℚ
  iTimeDisplay : ℚ
  iFrame : ℕ
  fluidResolution : ℤ × ℤ
  displayResolution : ℤ × ℤ
  fluidTarget1Size : ℤ × ℤ
  fluidTarget2Size : ℤ × ℤ
  rendererSize : ℤ × ℤ
  currentFluidTarget : TargetId
  previousFluidTarget : TargetId
  iPreviousFrame : Option TargetId
  iFluid : Option TargetId
deriving DecidableEq

/-- The state built by the `FluidGradient` constructor, before `init` runs.
Uniform and target fields do not exist yet in the source at this point;
they are given placeholder values here and are assigned by `fluidInit`
before any other code reads them. -/
def initialFluidState : FluidState :=
  { mouseX := 0
    mouseY := 0
    prevMouseX := 0
    prevMouseY := 0
    lastMoveTime := 0
    frameCount := 0
    isInitialized := false
    iMouse := Vec4.zero
    iTimeFluid := 0
    iTimeDisplay := 0
    iFrame := 0
    fluidResolution := (0, 0)
    displayResolution := (0, 0)
    fluidTarget1Size := (0, 0)
    fluidTarget2Size := (0, 0)
    rendererSize := (0, 0)
    currentFluidTarget := TargetId.t1
    previousFluidTarget := TargetId.t2
    iPreviousFrame := none
    iFluid := none }

/-- The size of the render target named by a `TargetId`, read off the
state. -/
def targetSize (s : FluidState) : TargetId → ℤ × ℤ
  | TargetId.t1 => s.fluidTarget1Size
  | TargetId.t2 => s.fluidTarget2Size

/-- The coordinates carried by a pointer event (`e.clientX`, `e.clientY`). -/
structure MouseEvent where
  clientX : ℤ
  clientY : ℤ
deriving DecidableEq

/-- The part of `gradientCanvas.getBoundingClientRect()` the mousemove
handler reads. -/
structure Rect where
  left : ℤ
  top : ℤ
  height : ℤ
deriving DecidableEq

/-- The `mousemove` handler installed by `setupEventListeners`: saves the
previous pointer position, converts the event to the canvas local
Y-flipped coordinate space, stamps `lastMoveTime` with `performance.now()`
(passed here as `now`), and writes the quad into the `iMouse` uniform. -/
def onMouseMove (e : MouseEvent) (rect : Rect) (now : ℤ) (s : FluidState) : FluidState :=
  let prevX := s.mouseX
  let prevY := s.mouseY
  let mx := e.clientX - rect.left
  let my := rect.height - (e.clientY - rect.top)
  { s with
      prevMouseX := prevX
      prevMouseY := prevY
      mouseX := mx
      mouseY := my
      lastMoveTime := now
      iMouse := { x := mx, y := my, z := prevX, w := prevY } }

/-- The `mouseleave` handler: sets the `iMouse` uniform to the zero
vector and touches nothing else. -/
def onMouseLeave (s : FluidState) : FluidState :=
  { s with iMouse := Vec4.zero }

/-- The `resize` handler: resizes the renderer, updates the resolution
uniforms of both materials, resizes both render targets, and resets
`frameCount` to zero. -/
def onResize (width height : ℤ) (s : FluidState) : FluidState :=
  { s with
      rendererSize := (width, height)
      fluidResolution := (width, height)
      displayResolution := (width, height)
      fluidTarget1Size := (width, height)
      fluidTarget2Size := (width, height)
      frameCount := 0 }

/-- A render operation issued during one `animate` tick: the simulation
pass records the pointer quad it was fed, the target bound as
`iPreviousFrame`, and the target it renders into; the display pass
records the target bound as `iFluid`. -/
inductive RenderOp
  | simPass (mouse : Vec4) (readFrom : Option TargetId) (writeTo : TargetId)
  | displayPass (readFrom : Option TargetId)
deriving DecidableEq

/-- The swap of the current/previous target pair performed at the end of
each `animate` tick via the `temp` variable in the source. -/
def swapTargets (p : TargetId × TargetId) : TargetId × TargetId := (p.2, p.1)

/-- One tick of the `animate` loop at wall-clock time `now` (milliseconds):
updates the time uniforms, publishes `frameCount` as `iFrame`, zeroes the
pointer quad when more than 100 ms elapsed since the last move, binds the
previous target as the simulation input, renders the simulation pass into
the current target, binds that target as the display input, renders the
display pass to the screen, swaps the target roles, and increments
`frameCount`.  Returns the new state and the render operations issued. -/
def animate (now : ℤ) (s : FluidState) : FluidState × List RenderOp :=
  let time : ℚ := (now : ℚ) / 1000
  let s1 := { s with iTimeFluid := time, iTimeDisplay := time, iFrame := s.frameCount }
  let s2 := if now - s1.lastMoveTime > 100 then { s1 with iMouse := Vec4.zero } else s1
  let s3 := { s2 with iPreviousFrame := some s2.previousFluidTarget }
  let simOp := RenderOp.simPass s3.iMouse s3.iPreviousFrame s3.currentFluidTarget
  let s4 := { s3 with iFluid := some s3.currentFluidTarget }
  let dispOp := RenderOp.displayPass s4.iFluid
  let swapped := swapTargets (s4.currentFluidTarget, s4.previousFluidTarget)
  let s5 := { s4 with
      currentFluidTarget := swapped.1
      previousFluidTarget := swapped.2
      frameCount := s4.frameCount + 1 }
  (s5, [simOp, dispOp])

/-- A run of consecutive `animate` ticks at the given times, concatenating
the render operations of every tick. -/
def animateMany : List ℤ → FluidState → FluidState × List RenderOp
  | [], s => (s, [])
  | t :: ts, s =>
    let r1 := animate t s
    let r2 := animateMany ts r1.1
    (r2.1, r1.2 ++ r2.2)

/-- The pointer quad fed to the first simulation pass of a render trace,
if any. -/
def simPassMouse : List RenderOp → Option Vec4
  | RenderOp.simPass m _ _ :: _ => some m
  | RenderOp.displayPass _ :: rest => simPassMouse rest
  | [] => none

/-- `FluidGradient.setupRenderTargets`: allocates both render targets at
the window size and assigns target 1 the current role and target 2 the
previous role. -/
def setupRenderTargets (winW winH : ℤ) (s : FluidState) : FluidState :=
  { s with
      fluidTarget1Size := (winW, winH)
      fluidTarget2Size := (winW, winH)
      currentFluidTarget := TargetId.t1
      previousFluidTarget := TargetId.t2 }

/-- `FluidGradient.setupMaterials`: creates the two shader materials with
their initial uniform values. -/
def setupMaterials (winW winH : ℤ) (s : FluidState) : FluidState :=
  { s with
      iTimeFluid := 0
      iTimeDisplay := 0
      fluidResolution := (winW, winH)
      displayResolution := (winW, winH)
      iMouse := Vec4.zero
      iFrame := 0
      iPreviousFrame := none
      iFluid := none }

/-- `FluidGradient.init`: a no-op when already initialized; returns
without logging when the `.gradient-canvas` anchor is absent
(`canvasPresent = false`); otherwise sizes the renderer, runs the setup
steps, and marks the instance initialized.  The second component is the
list of console messages emitted. -/
def fluidInit (canvasPresent : Bool) (winW winH : ℤ) (s : FluidState) :
    FluidState × List String :=
  if s.isInitialized then (s, [])
  else if !canvasPresent then (s, [])
  else
    let sa := { s with rendererSize := (winW, winH) }
    let sb := setupRenderTargets winW winH sa
    let sc := setupMaterials winW winH sb
    ({ sc with isInitialized := true }, [])

/-- `PreloaderAnimation.init`: when the preloader element is absent it
logs an error and returns without running `setupAnimation`; otherwise it
runs `setupAnimation`.  Returns whether setup ran and the console
messages emitted. -/
def preloaderInit (preloaderPresent : Bool) : Bool × List String :=
  if !preloaderPresent then (false, ["Preloader element not found"])
  else (true, [])

/-- The numeric value of one hexadecimal digit character, by its code
point, as `parseInt(_, 16)` interprets single digits; `none` on a
non-hex-digit character (where `parseInt` yields `NaN`). -/
def hexDigitValue (c : Char) : Option ℕ :=
  if 48 ≤ c.toNat ∧ c.toNat ≤ 57 then some (c.toNat - 48)
  else if 97 ≤ c.toNat ∧ c.toNat ≤ 102 then some (c.toNat - 97 + 10)
  else if 65 ≤ c.toNat ∧ c.toNat ≤ 70 then some (c.toNat - 65 + 10)
  else none

/-- `parseInt(s, 16)` on a two-character slice: 16 times the first digit
plus the second. -/
def parseHexByte (c1 c2 : Char) : Option ℕ := do
  let h ← hexDigitValue c1
  let l ← hexDigitValue c2
  pure (16 * h + l)

/-- `FluidGradient.hexToRgb` on a 7-character list `#RRGGBB`: parses the
three two-digit slices in base 16 and divides each by 255.  Inputs of any
other shape, for which the source slices would misalign or `parseInt`
would return `NaN`, yield `none`. -/
def hexToRgbChars : List Char → Option (ℚ × ℚ × ℚ)
  | ['#', r1, r2, g1, g2, b1, b2] => do
    let r ← parseHexByte r1 r2
    let g ← parseHexByte g1 g2
    let b ← parseHexByte b1 b2
    pure ((r : ℚ) / 255, (g : ℚ) / 255, (b : ℚ) / 255)
  | _ => none

/-- `FluidGradient.hexToRgb` on a string, via its character list. -/
def hexToRgb (hex : String) : Option (ℚ × ℚ × ℚ) :=
  hexToRgbChars hex.data

/-- Whether every simulation pass in a render trace was fed the zero
pointer quad. -/
def allSimZero : List RenderOp → Bool
  | [] => true
  | RenderOp.simPass m _ _ :: rest => m == Vec4.zero && allSimZero rest
  | RenderOp.displayPass _ :: rest => allSimZero rest

/-- The pointer stayed idle throughout the given tick times: each tick
happens strictly more than 100 ms after the last recorded move. -/
def idleThroughout (ts : List ℤ) (s : FluidState) : Prop :=
  ∀ t ∈ ts, t - s.lastMoveTime > 100

instance (ts : List ℤ) (s : FluidState) : Decidable (idleThroughout ts s) :=
  inferInstanceAs (Decidable (∀ t ∈ ts, t - s.lastMoveTime > 100))

/-- The state after a successful `init` at a 1024 x 768 window. -/
def readyState : FluidState := (fluidInit true 1024 768 initialFluidState).1

/-- A canvas rectangle anchored at the page origin with height 768. -/
def rect0 : Rect := { left := 0, top := 0, height := 768 }

/-- `readyState` after pointer moves at times 10 and 20 whose converted
local Y-flipped coordinates are (100,100) and then (150,120). -/
def movedState : FluidState :=
  onMouseMove { clientX := 150, clientY := 648 } rect0 20
    (onMouseMove { clientX := 100, clientY := 668 } rect0 10 readyState)

/-- An `animate` tick never changes `lastMoveTime`. -/
theorem animate_lastMoveTime (now : ℤ) (s : FluidState) :
    (animate now s).1.lastMoveTime = s.lastMoveTime := by
  by_cases hc : now - s.lastMoveTime > 100 <;> simp [animate, swapTargets, hc]

/-- A hexadecimal digit has value at most 15. -/
theorem hexDigitValue_le (c : Char) (v : ℕ) (h : hexDigitValue c = some v) :
    v ≤ 15 := by
  simp only [hexDigitValue] at h
  split_ifs at h <;> simp_all <;> omega

/-- C1: on every `animate` tick the simulation pass reads the previous
target and writes into the current target, the display pass then reads
that just-written current target, and only after both passes do the two
roles swap, exactly once per tick; hence the write/read assignment
strictly alternates frame to frame (two ticks restore it) and swapping
twice restores the original assignment. -/
theorem animate_ping_pong (now now2 : ℤ) (s : FluidState)
    (h : s.currentFluidTarget ≠ s.previousFluidTarget) :
    (animate now s).2 =
      [RenderOp.simPass (if now - s.lastMoveTime > 100 then Vec4.zero else s.iMouse)
         (some s.previousFluidTarget) s.currentFluidTarget,
       RenderOp.displayPass (some s.currentFluidTarget)] ∧
    (animate now s).1.currentFluidTarget = s.previousFluidTarget ∧
    (animate now s).1.previousFluidTarget = s.currentFluidTarget ∧
    (animate now s).1.currentFluidTarget ≠ (animate now s).1.previousFluidTarget ∧
    (animate now2 (animate now s).1).1.currentFluidTarget = s.currentFluidTarget ∧
    (animate now2 (animate now s).1).1.previousFluidTarget = s.previousFluidTarget ∧
    swapTargets (swapTargets (s.currentFluidTarget, s.previousFluidTarget)) =
      (s.currentFluidTarget, s.previousFluidTarget) := by
  by_cases hc : now - s.lastMoveTime > 100 <;>
    by_cases hc2 : now2 - s.lastMoveTime > 100 <;>
    simp [animate, swapTargets, hc, hc2, Ne.symm h]

/-- Witness for C1 at the freshly initialized state and tick times 16
and 32. -/
theorem animate_ping_pong_witness :
    readyState.currentFluidTarget ≠ readyState.previousFluidTarget ∧
    (animate 16 readyState).1.currentFluidTarget = readyState.previousFluidTarget ∧
    (animate 16 readyState).1.previousFluidTarget = readyState.currentFluidTarget ∧
    (animate 32 (animate 16 readyState).1).1.currentFluidTarget =
      readyState.currentFluidTarget :=
  ⟨by decide, (animate_ping_pong 16 32 readyState (by decide)).2.1,
    (animate_ping_pong 16 32 readyState (by decide)).2.2.1,
    (animate_ping_pong 16 32 readyState (by decide)).2.2.2.2.1⟩

/-- C3: the `resize` handler sets both render targets, both resolution
uniforms, and the renderer to the new dimensions and resets the frame
index to zero, so the tick that follows reads only buffers of the new
dimensions and publishes frame index 0. -/
theorem resize_reallocates (w h t : ℤ) (s : FluidState) :
    (onResize w h s).fluidTarget1Size = (w, h) ∧
    (onResize w h s).fluidTarget2Size = (w, h) ∧
    (onResize w h s).fluidResolution = (w, h) ∧
    (onResize w h s).displayResolution = (w, h) ∧
    (onResize w h s).frameCount = 0 ∧
    targetSize (onResize w h s) (onResize w h s).previousFluidTarget = (w, h) ∧
    targetSize (onResize w h s) (onResize w h s).currentFluidTarget = (w, h) ∧
    (animate t (onResize w h s)).1.iFrame = 0 := by
  refine ⟨rfl, rfl, rfl, rfl, rfl, ?_, ?_, ?_⟩
  · cases hp : (onResize w h s).previousFluidTarget <;> simp [targetSize, onResize]
  · cases hp : (onResize w h s).currentFluidTarget <;> simp [targetSize, onResize]
  · by_cases hc : 100 < t - s.lastMoveTime <;>
      simp [animate, swapTargets, onResize, hc]

/-- C7: the `mouseleave` handler sets the pointer quad uniform to the
zero vector at once, and the next tick feeds the zero quad to the
simulation pass whatever the elapsed idle time is. -/
theorem mouseleave_zeroes_now (t : ℤ) (s : FluidState) :
    (onMouseLeave s).iMouse = Vec4.zero ∧
    simPassMouse (animate t (onMouseLeave s)).2 = some Vec4.zero := by
  refine ⟨rfl, ?_⟩
  by_cases hc : t - (onMouseLeave s).lastMoveTime > 100 <;>
    simp [onMouseLeave, animate, simPassMouse, swapTargets, hc]

/-- C9: the `resize` handler leaves the current/previous role assignment
of the two targets, the pointer fields and the pointer quad unchanged
(it changes only sizes, resolution uniforms and the frame index), so the
tick following a resize issues exactly the render operations it would
have issued without the resize. -/
theorem resize_preserves_roles (w h t : ℤ) (s : FluidState) :
    (onResize w h s).currentFluidTarget = s.currentFluidTarget ∧
    (onResize w h s).previousFluidTarget = s.previousFluidTarget ∧
    (onResize w h s).mouseX = s.mouseX ∧
    (onResize w h s).mouseY = s.mouseY ∧
    (onResize w h s).prevMouseX = s.prevMouseX ∧
    (onResize w h s).prevMouseY = s.prevMouseY ∧
    (onResize w h s).lastMoveTime = s.lastMoveTime ∧
    (onResize w h s).iMouse = s.iMouse ∧
    (onResize w h s).isInitialized = s.isInitialized ∧
    (onResize w h s).frameCount = 0 ∧
    (animate t (onResize w h s)).2 = (animate t s).2 ∧
    (animate t (onResize w h s)).1.currentFluidTarget =
      (animate t s).1.currentFluidTarget ∧
    (animate t (onResize w h s)).1.previousFluidTarget =
      (animate t s).1.previousFluidTarget := by
  by_cases hc : t - s.lastMoveTime > 100 <;> simp [onResize, animate, swapTargets, hc]

/-- C10: the `mouseleave` handler zeroes only the pointer quad uniform,
leaving the stored pointer fields, the move timestamp, the frame count
and the target roles untouched, so the first move after re-entry reports
the pre-leave position as the previous position of the quad. -/
theorem mouseleave_only_quad (e : MouseEvent) (r : Rect) (t : ℤ) (s : FluidState) :
    (onMouseLeave s).mouseX = s.mouseX ∧
    (onMouseLeave s).mouseY = s.mouseY ∧
    (onMouseLeave s).prevMouseX = s.prevMouseX ∧
    (onMouseLeave s).prevMouseY = s.prevMouseY ∧
    (onMouseLeave s).lastMoveTime = s.lastMoveTime ∧
    (onMouseLeave s).frameCount = s.frameCount ∧
    (onMouseLeave s).currentFluidTarget = s.currentFluidTarget ∧
    (onMouseLeave s).previousFluidTarget = s.previousFluidTarget ∧
    (onMouseLeave s).iMouse = Vec4.zero ∧
    (onMouseMove e r t (onMouseLeave s)).iMouse.z = s.mouseX ∧
    (onMouseMove e r t (onMouseLeave s)).iMouse.w = s.mouseY := by
  simp [onMouseLeave, onMouseMove]

/-- C2 counterexample: after moves ending at time 20, a tick at time 120
has seen no pointer move for exactly 100 ms (so at least 100 ms), yet
the simulation pass is fed the last move quad, not the zero vector,
because the source tests a strict `> 100`. -/
theorem idle_decay_geq_cex :
    (120 : ℤ) - movedState.lastMoveTime ≥ 100 ∧
    simPassMouse (animate 120 movedState).2 ≠ some Vec4.zero ∧
    simPassMouse (animate 120 movedState).2 =
      some { x := 150, y := 120, z := 100, w := 100 } := by
  decide

/-- C2 (amended): when every tick of a run happens strictly more than
100 ms after the last pointer move, every simulation pass of the run is
fed the zero pointer quad, however much additional time passes. -/
theorem idle_decay_strict (ts : List ℤ) (s : FluidState)
    (h : idleThroughout ts s) :
    allSimZero (animateMany ts s).2 = true := by
  induction ts generalizing s with
  | nil => rfl
  | cons t ts ih =>
    have ht : t - s.lastMoveTime > 100 := h t (by simp)
    have hrest : idleThroughout ts (animate t s).1 := by
      intro u hu
      have hu2 := h u (by simp [hu])
      rwa [animate_lastMoveTime]
    have hz := ih _ hrest
    simp only [animateMany]
    simp only [animate, swapTargets, ht, if_true, gt_iff_lt, if_pos ht] at hz ⊢
    simpa [allSimZero] using hz

/-- Witness for C2: the pointer went idle at time 20; ticks at 150, 250
and 1000 all feed the zero quad to the simulation pass (in particular
the 150 ms one). -/
theorem idle_decay_strict_witness :
    idleThroughout [150, 250, 1000] movedState ∧
    allSimZero (animateMany [150, 250, 1000] movedState).2 = true :=
  ⟨by decide, idle_decay_strict [150, 250, 1000] movedState (by decide)⟩

/-- C4 counterexample: when the `.gradient-canvas` anchor is absent,
`FluidGradient.init` returns with the state unchanged but emits no
console message at all, contradicting the claim that it logs. -/
theorem init_missing_anchor_cex :
    (fluidInit false 1024 768 initialFluidState).2 = ([] : List String) ∧
    (fluidInit false 1024 768 initialFluidState).1 = initialFluidState := by
  decide

/-- C4 (amended): with the anchor element absent, initialization aborts
without raising: `FluidGradient.init` returns silently (no log, state
unchanged, `isInitialized` still false, no setup side effects), while
`PreloaderAnimation.init` logs an error and skips its setup. -/
theorem init_missing_anchor_aborts (w h : ℤ) (s : FluidState)
    (hs : s.isInitialized = false) :
    fluidInit false w h s = (s, []) ∧
    (fluidInit false w h s).1.isInitialized = false ∧
    preloaderInit false = (false, ["Preloader element not found"]) := by
  simp [fluidInit, preloaderInit, hs]

/-- Witness for C4 at the constructor state and a 1024 x 768 window. -/
theorem init_missing_anchor_aborts_witness :
    initialFluidState.isInitialized = false ∧
    fluidInit false 1024 768 initialFluidState = (initialFluidState, []) ∧
    preloaderInit false = (false, ["Preloader element not found"]) :=
  ⟨by decide, (init_missing_anchor_aborts 1024 768 initialFluidState rfl).1,
    (init_missing_anchor_aborts 1024 768 initialFluidState rfl).2.2⟩

/-- C5: two consecutive pointer moves record the first converted
position as the previous position before overwriting it with the second,
stamp the move time, and a tick at most 100 ms later feeds the
simulation pass the quad (new x, new y, old x, old y) in the local
Y-flipped coordinate space. -/
theorem mousemove_history (e1 e2 : MouseEvent) (r : Rect) (t1 t2 tk : ℤ)
    (s : FluidState) (h : tk - t2 ≤ 100) :
    (onMouseMove e2 r t2 (onMouseMove e1 r t1 s)).prevMouseX = e1.clientX - r.left ∧
    (onMouseMove e2 r t2 (onMouseMove e1 r t1 s)).prevMouseY =
      r.height - (e1.clientY - r.top) ∧
    (onMouseMove e2 r t2 (onMouseMove e1 r t1 s)).mouseX = e2.clientX - r.left ∧
    (onMouseMove e2 r t2 (onMouseMove e1 r t1 s)).mouseY =
      r.height - (e2.clientY - r.top) ∧
    (onMouseMove e2 r t2 (onMouseMove e1 r t1 s)).lastMoveTime = t2 ∧
    simPassMouse (animate tk (onMouseMove e2 r t2 (onMouseMove e1 r t1 s))).2 =
      some { x := e2.clientX - r.left, y := r.height - (e2.clientY - r.top),
             z := e1.clientX - r.left, w := r.height - (e1.clientY - r.top) } := by
  have hc : ¬ (100 < tk - t2) := by omega
  simp [onMouseMove, animate, simPassMouse, swapTargets, hc]

/-- Witness for C5: moves landing at local (100,100) then (150,120)
within 50 ms and a tick 10 ms later yield the quad (150,120,100,100). -/
theorem mousemove_history_witness :
    (60 : ℤ) - 50 ≤ 100 ∧
    simPassMouse
      (animate 60
        (onMouseMove { clientX := 150, clientY := 648 } rect0 50
          (onMouseMove { clientX := 100, clientY := 668 } rect0 0 readyState))).2 =
      some { x := 150, y := 120, z := 100, w := 100 } := by
  refine ⟨by decide, ?_⟩
  have h := (mousemove_history { clientX := 100, clientY := 668 }
    { clientX := 150, clientY := 648 } rect0 0 50 60 readyState
    (by decide)).2.2.2.2.2
  simpa [rect0] using h

/-- C8: initialization runs at most once: a successful `init` sets
`isInitialized`, and every later `init` call, with any arguments, is a
no-op returning the state unchanged with no side effects and no log. -/
theorem init_runs_once (w h w2 h2 : ℤ) (p2 : Bool) (s : FluidState)
    (hs : s.isInitialized = false) :
    (fluidInit true w h s).1.isInitialized = true ∧
    fluidInit p2 w2 h2 (fluidInit true w h s).1 = ((fluidInit true w h s).1, []) := by
  simp [fluidInit, setupRenderTargets, setupMaterials, hs]

/-- Witness for C8: after initializing at 1024 x 768, a second call at
800 x 600 with the anchor now absent changes nothing. -/
theorem init_runs_once_witness :
    initialFluidState.isInitialized = false ∧
    (fluidInit true 1024 768 initialFluidState).1.isInitialized = true ∧
    fluidInit false 800 600 (fluidInit true 1024 768 initialFluidState).1 =
      ((fluidInit true 1024 768 initialFluidState).1, []) :=
  ⟨by decide, (init_runs_once 1024 768 800 600 false initialFluidState rfl).1,
    (init_runs_once 1024 768 800 600 false initialFluidState rfl).2⟩

/-- A two-hex-digit component value divided by 255 lies in the unit
interval. -/
theorem hexComponentBounds (v : ℕ) (hv : v ≤ 255) :
    0 ≤ (v : ℚ) / 255 ∧ (v : ℚ) / 255 ≤ 1 := by
  constructor
  · positivity
  · rw [div_le_one (by norm_num)]
    exact_mod_cast hv

/-- C6: on every string of the form `#RRGGBB` whose six characters are
hexadecimal digits, `hexToRgb` returns the three two-digit component
values each divided by 255, and each returned component lies in [0,1]. -/
theorem hexToRgb_components (c1 c2 c3 c4 c5 c6 : Char) (v1 v2 v3 v4 v5 v6 : ℕ)
    (h1 : hexDigitValue c1 = some v1) (h2 : hexDigitValue c2 = some v2)
    (h3 : hexDigitValue c3 = some v3) (h4 : hexDigitValue c4 = some v4)
    (h5 : hexDigitValue c5 = some v5) (h6 : hexDigitValue c6 = some v6) :
    hexToRgb (String.mk ['#', c1, c2, c3, c4, c5, c6]) =
      some (((16 * v1 + v2 : ℕ) : ℚ) / 255, ((16 * v3 + v4 : ℕ) : ℚ) / 255,
        ((16 * v5 + v6 : ℕ) : ℚ) / 255) ∧
    (0 ≤ ((16 * v1 + v2 : ℕ) : ℚ) / 255 ∧ ((16 * v1 + v2 : ℕ) : ℚ) / 255 ≤ 1) ∧
    (0 ≤ ((16 * v3 + v4 : ℕ) : ℚ) / 255 ∧ ((16 * v3 + v4 : ℕ) : ℚ) / 255 ≤ 1) ∧
    (0 ≤ ((16 * v5 + v6 : ℕ) : ℚ) / 255 ∧ ((16 * v5 + v6 : ℕ) : ℚ) / 255 ≤ 1) := by
  have b1 := hexDigitValue_le c1 v1 h1
  have b2 := hexDigitValue_le c2 v2 h2
  have b3 := hexDigitValue_le c3 v3 h3
  have b4 := hexDigitValue_le c4 v4 h4
  have b5 := hexDigitValue_le c5 v5 h5
  have b6 := hexDigitValue_le c6 v6 h6
  refine ⟨?_, hexComponentBounds _ (by omega), hexComponentBounds _ (by omega),
    hexComponentBounds _ (by omega)⟩
  simp [hexToRgb, hexToRgbChars, parseHexByte, h1, h2, h3, h4, h5, h6]

/-- Witness for C6 at the input string made of the characters
hash, 3, C, 8, a, 2, f. -/
theorem hexToRgb_components_witness :
    hexDigitValue '3' = some 3 ∧ hexDigitValue 'C' = some 12 ∧
    hexDigitValue '8' = some 8 ∧ hexDigitValue 'a' = some 10 ∧
    hexDigitValue '2' = some 2 ∧ hexDigitValue 'f' = some 15 ∧
    (hexToRgb (String.mk ['#', '3', 'C', '8', 'a', '2', 'f']) =
      some (((16 * 3 + 12 : ℕ) : ℚ) / 255, ((16 * 8 + 10 : ℕ) : ℚ) / 255,
        ((16 * 2 + 15 : ℕ) : ℚ) / 255) ∧
     (0 ≤ ((16 * 3 + 12 : ℕ) : ℚ) / 255 ∧ ((16 * 3 + 12 : ℕ) : ℚ) / 255 ≤ 1) ∧
     (0 ≤ ((16 * 8 + 10 : ℕ) : ℚ) / 255 ∧ ((16 * 8 + 10 : ℕ) : ℚ) / 255 ≤ 1) ∧
     (0 ≤ ((16 * 2 + 15 : ℕ) : ℚ) / 255 ∧ ((16 * 2 + 15 : ℕ) : ℚ) / 255 ≤ 1)) :=
  ⟨by decide, by decide, by decide, by decide, by decide, by decide,
    hexToRgb_components '3' 'C' '8' 'a' '2' 'f' 3 12 8 10 2 15
      (by decide) (by decide) (by decide) (by decide) (by decide) (by decide)⟩
